import Mathlib

/-!
Verification of the source-discovery pipeline of the Data_Extraction_Challenge_ESA
repository, as a shallow embedding in Lean 4.

Python runtime values flowing through the pipeline (JSON-decoded objects, values
produced by synthesized code, report records) are modelled by `PyVal`.
External collaborators (the generative-model provider, the network, the `re`,
`json` and `urllib.parse` standard-library routines, the filesystem) are modelled
as explicit environment parameters: every function of the repository itself is
translated from its source, with the outcome of each external call supplied by
the environment.
-/

set_option autoImplicit false

/-- A Python runtime value, as needed by the pipeline: `None`, booleans,
integers, strings, lists and (insertion-ordered) string-keyed dicts. -/
inductive PyVal where
  | none : PyVal
  | bool : Bool → PyVal
  | int : Int → PyVal
  | str : String → PyVal
  | list : List PyVal → PyVal
  | dict : List (String × PyVal) → PyVal
  deriving Repr

/-- Python truthiness (`bool(v)`): `None`, `False`, `0`, `""`, `[]`, `{}` are
falsy, everything else truthy. -/
def pyTruthy : PyVal → Bool
  | .none => false
  | .bool b => b
  | .int n => n ≠ 0
  | .str s => s ≠ ""
  | .list xs => !xs.isEmpty
  | .dict kvs => !kvs.isEmpty

/-- First binding of key `k` in an ordered assoc list (Python dict lookup:
keys are unique, so the first binding is the binding). -/
def pyLookup (kvs : List (String × PyVal)) (k : String) : Option PyVal :=
  match kvs with
  | [] => Option.none
  | (k', v) :: rest => if k' = k then some v else pyLookup rest k

/-- Python `d[k] = v` on an insertion-ordered dict: overwrite in place if the
key is present, else append at the end. -/
def pySetEntries (kvs : List (String × PyVal)) (k : String) (v : PyVal) :
    List (String × PyVal) :=
  match kvs with
  | [] => [(k, v)]
  | (k', v') :: rest =>
    if k' = k then (k, v) :: rest else (k', v') :: pySetEntries rest k v

/-- Exceptions that the embedded code can propagate. -/
inductive PyErr where
  | attributeError : PyErr
  | nameError : PyErr
  deriving Repr, DecidableEq

/-- Python `data.get(k)`: returns the value (or `None` if the key is missing)
when `data` is a dict, raises `AttributeError` otherwise. -/
def pyDictGet (data : PyVal) (k : String) : Except PyErr PyVal :=
  match data with
  | .dict kvs => .ok ((pyLookup kvs k).getD .none)
  | _ => .error .attributeError

/-- Python `data.values()` (as a list, in insertion order): raises
`AttributeError` when `data` is not a dict. -/
def pyDictValues (data : PyVal) : Except PyErr (List PyVal) :=
  match data with
  | .dict kvs => .ok (kvs.map Prod.snd)
  | _ => .error .attributeError

/-- Comma-separated join, used by the `str()` rendering of lists and dicts. -/
def commaSep : List String → String
  | [] => ""
  | [s] => s
  | s :: rest => s ++ ", " ++ commaSep rest

/-- Python `repr(v)` for the values above (string escaping inside `repr` of a
string is not reproduced; no claim depends on it). -/
def pyRepr : PyVal → String
  | .none => "None"
  | .bool true => "True"
  | .bool false => "False"
  | .int n => toString n
  | .str s => "\x27" ++ s ++ "\x27"
  | .list xs => "[" ++ commaSep (xs.attach.map (fun x => pyRepr x.1)) ++ "]"
  | .dict kvs =>
    "\x7b" ++
      commaSep (kvs.attach.map
        (fun kv => "\x27" ++ kv.1.1 ++ "\x27: " ++ pyRepr kv.1.2)) ++ "\x7d"
decreasing_by
  · have h := List.sizeOf_lt_of_mem x.2
    simp only [PyVal.list.sizeOf_spec]
    omega
  · obtain ⟨⟨k, v⟩, hmem⟩ := kv
    have h := List.sizeOf_lt_of_mem hmem
    simp only [PyVal.dict.sizeOf_spec, Prod.mk.sizeOf_spec] at *
    omega

/-- Python `str(v)`: like `repr` except that a string renders as itself. -/
def pyStr : PyVal → String
  | .str s => s
  | v => pyRepr v

/-! ## WebProbe: `WebScraperModule.is_page_not_found` (scraping_challenge.py) -/

/-- Behaviour of `self.session.get(url, timeout=self.timeout)` for a given
`url` argument: either an HTTP status code, or a `requests.RequestException`
(network failure, timeout, invalid/coerced URL — the unit error). `requests`
coerces a non-str argument with `str()`, so the argument is kept as a `PyVal`. -/
def HttpOracle : Type := PyVal → Except Unit Nat

/-- Embeds `WebScraperModule.is_page_not_found`: a bounded-timeout GET; `True`
(dead) on HTTP 403/404 and on any `requests.RequestException`; `False`
otherwise. Total — the single `except` clause covers every failure of the GET. -/
def is_page_not_found (httpGet : HttpOracle) (url : PyVal) : Bool :=
  match httpGet url with
  | .error _ => true
  | .ok status => status = 403 || status = 404

/-! ## CodeSynthesisRunner: `WebScraperModule.load_and_run_code` -/

/-- Outcome of `exec(compile(code, path, "exec"), module_vars)` on the
synthesized routine: the exec raises (syntax error, runtime error), or it
completes leaving `module_vars` with the given bindings. -/
inductive ExecOutcome where
  | raises : ExecOutcome
  | completes (vars : List (String × PyVal)) : ExecOutcome

/-- Embeds `WebScraperModule.load_and_run_code`: run the script, then read back
`module_vars.get("result")`; any exception is caught and converted to `None`.
A missing `result` binding also yields `None` (`dict.get` default); a bound
value — dict or not — is returned unchanged. -/
def load_and_run_code (outcome : ExecOutcome) : PyVal :=
  match outcome with
  | .raises => .none
  | .completes vars => (pyLookup vars "result").getD .none

/-! ## `WebScraperModule.ai_web_scraping` -/

/-- External behaviour of one fallback synthesis attempt:
`responseText` is the model response for the scraping prompt (`none` covers
`response is None`, a missing `.text` attribute — and `some ""` an empty text);
`saveOk` is whether `save_code` succeeded; `exec` is the outcome of running
the saved script. -/
structure SynthAttempt where
  responseText : Option String
  saveOk : Bool
  exec : ExecOutcome

/-- Embeds `WebScraperModule.ai_web_scraping`: empty/missing model response → `None`;
failure to write the generated code → `None`; otherwise the value produced by
`load_and_run_code`. (The fence-stripping `re.sub` only affects the code text,
which is absorbed into the `exec` outcome.) -/
def ai_web_scraping (a : SynthAttempt) : PyVal :=
  match a.responseText with
  | Option.none => PyVal.none
  | some t =>
    if t = "" then PyVal.none
    else if a.saveOk then load_and_run_code a.exec
    else PyVal.none

/-! ## DiscoveryOrchestrator: `WebScraperModule.scrape_financial_sources` -/

/-- Environment of one `scrape_financial_sources` call.
`rawResp i` is the text obtained on AI-lookup attempt `i` (attempt 0 via
`find_company_website_with_ai`, attempts ≥ 1 via the prompt tuner), `none`
covering both an empty/absent response and an exception inside those calls.
`cleanResponse` is the `strip` + fence-stripping `re.sub` (stdlib oracle),
`jsonLoads` is `json.loads` (error = `JSONDecodeError`), `synth i` the
external behaviour of fallback attempt `i`, and `httpGet` the network. -/
structure ScrapeEnv where
  max_retries : Nat
  rawResp : Nat → Option String
  cleanResponse : String → String
  jsonLoads : String → Except Unit PyVal
  synth : Nat → SynthAttempt
  httpGet : HttpOracle

/-- Result of the first (`AI_LOOKUP`) loop: an early `return` with the tuple
`tuple(data.values())`, or exhaustion carrying the final value of the local
variable `data` (`none` = still unbound). -/
inductive Phase1Result where
  | returned (out : List PyVal) : Phase1Result
  | exhausted (dataVar : Option PyVal) : Phase1Result

/-- The `while attempt < self.max_retries` AI-lookup loop of
`scrape_financial_sources`, with `fuel = max_retries - attempt`.
Every exception inside the body is caught by the `except` clause, which just
advances `attempt`; `data` is assigned by a successful `json.loads` even when
the subsequent probe fails. -/
def phase1Loop (env : ScrapeEnv) (dataVar : Option PyVal) (attempt : Nat) :
    Nat → Phase1Result
  | 0 => .exhausted dataVar
  | fuel + 1 =>
    match env.rawResp attempt with
    | Option.none => phase1Loop env dataVar (attempt + 1) fuel
    | some raw =>
      match env.jsonLoads (env.cleanResponse raw) with
      | .error _ => phase1Loop env dataVar (attempt + 1) fuel
      | .ok data =>
        match data with
        | .dict kvs =>
          let url := (pyLookup kvs "url").getD .none
          if !pyTruthy url || is_page_not_found env.httpGet url then
            phase1Loop env (some data) (attempt + 1) fuel
          else
            .returned
              ((pySetEntries kvs "response_status" (.str "Page found")).map
                Prod.snd)
        | _ => phase1Loop env (some data) (attempt + 1) fuel

/-- The fallback (`FALLBACK_SYNTH`) loop of `scrape_financial_sources`.
`data = self.ai_web_scraping(...)` is only `is None`-checked, so a non-dict,
non-`None` result reaches `data.get("url")` outside any `try` and the
`AttributeError` propagates (`Except.error`). A live URL breaks out of the
loop; a dead one stores `"Page not found"` and advances the attempt. -/
def phase2Loop (env : ScrapeEnv) (dataVar : Option PyVal) (attempt : Nat) :
    Nat → Except PyErr (Option PyVal)
  | 0 => .ok dataVar
  | fuel + 1 =>
    match ai_web_scraping (env.synth attempt) with
    | PyVal.none => phase2Loop env (some PyVal.none) (attempt + 1) fuel
    | PyVal.dict kvs =>
      let url := (pyLookup kvs "url").getD PyVal.none
      if is_page_not_found env.httpGet url then
        phase2Loop env
          (some (.dict (pySetEntries kvs "response_status"
            (.str "Page not found"))))
          (attempt + 1) fuel
      else
        .ok (some (.dict (pySetEntries kvs "response_status"
          (.str "Page found"))))
    | _ => .error .attributeError

/-- The sentinel `(None, None, None, None, "Page not found")`. -/
def notFoundSentinel : List PyVal :=
  [PyVal.none, PyVal.none, PyVal.none, PyVal.none, PyVal.str "Page not found"]

/-- The code after both loops: `if not data` and the arity check each return
the sentinel; otherwise `tuple(data.values())`. An unbound `data`
(`max_retries = 0`) raises `NameError`; `len(data.values())` on a non-dict
raises `AttributeError`. -/
def scrapeFinal (dataVar : Option PyVal) : Except PyErr (List PyVal) :=
  match dataVar with
  | Option.none => .error .nameError
  | some d =>
    if !pyTruthy d then .ok notFoundSentinel
    else
      match pyDictValues d with
      | .error e => .error e
      | .ok vs => if vs.length ≠ 5 then .ok notFoundSentinel else .ok vs

/-- Embeds `WebScraperModule.scrape_financial_sources`: AI-lookup loop, then the
fallback synthesis loop, then the final sentinel/arity logic. -/
def scrape_financial_sources (env : ScrapeEnv) : Except PyErr (List PyVal) :=
  match phase1Loop env Option.none 0 env.max_retries with
  | .returned out => .ok out
  | .exhausted d1 =>
    match phase2Loop env d1 0 env.max_retries with
    | .error e => .error e
    | .ok d2 => scrapeFinal d2

/-! ## ModelInvoker: `PromptGenerator.call` (prompt_generator.py) -/

/-- Behaviour of `self.model.generate_content(prompt)` on one attempt:
a response (a truthy response object whose `.text` is the given string), a
`ResourceExhausted` quota error — `retryDelay = some s` models an exception
carrying a `retry_delay` attribute with `.seconds = s`, `none` one without a
usable delay — or any other exception. -/
inductive GenOutcome where
  | success (text : String) : GenOutcome
  | quota (retryDelay : Option Nat) : GenOutcome
  | failure : GenOutcome

/-- The delay slept on a quota error: the provider-suggested seconds when
present, else the fixed default of 60. -/
def quotaDelay : Option Nat → Nat
  | some s => s
  | Option.none => 60

/-- Observable trace of `PromptGenerator.call`: the returned response text (or
`None`), the total time slept, the number of sleeps, and the number of
`generate_content` invocations. -/
structure CallTrace where
  result : Option String
  totalSleep : Nat
  sleeps : Nat
  calls : Nat
  deriving Repr, DecidableEq

/-- The `while retries < self.max_retries` loop of `PromptGenerator.call`
(`fuel = max_retries - retries`): quota error → sleep and advance `retries`;
any other exception → `break` (abort, no retry); a response → return it.
Falling out of the loop returns `None`. -/
def callLoop (gen : Nat → GenOutcome) (retries : Nat) : Nat → CallTrace
  | 0 => ⟨Option.none, 0, 0, 0⟩
  | fuel + 1 =>
    match gen retries with
    | .success t => ⟨some t, 0, 0, 1⟩
    | .quota d =>
      let rest := callLoop gen (retries + 1) fuel
      ⟨rest.result, quotaDelay d + rest.totalSleep, rest.sleeps + 1,
        rest.calls + 1⟩
    | .failure => ⟨Option.none, 0, 0, 1⟩

/-- Embeds `PromptGenerator.call` with the provider behaviour `gen` and the configured
`max_retries`. -/
def call (gen : Nat → GenOutcome) (max_retries : Nat) : CallTrace :=
  callLoop gen 0 max_retries

/-! ## ResultValidator (result_validator.py) -/

/-- Suffix of the character list starting at its first `{`, if any. -/
def fromFirstLBrace : List Char → Option (List Char)
  | [] => Option.none
  | c :: rest =>
    if c = '\x7b' then some (c :: rest) else fromFirstLBrace rest

/-- Prefix of the character list ending at its last `}`, if any (computed by
scanning the reversal). -/
def dropAfterRBrace : List Char → Option (List Char)
  | [] => Option.none
  | c :: rest => if c = '\x7d' then some (c :: rest) else dropAfterRBrace rest

/-- The match of `re.search(r"({[\s\S]*})", text)`: from the first `{` to the
last `}` of the text, provided that `}` comes after that `{`; no match
otherwise (leftmost start, greedy extent). -/
def braceSpan (text : List Char) : Option (List Char) :=
  match fromFirstLBrace text with
  | Option.none => Option.none
  | some suffix =>
    match dropAfterRBrace suffix.reverse with
    | Option.none => Option.none
    | some kept => some kept.reverse

/-- Embeds `ResultValidator._extract_json_from_text`: decode the brace-delimited span
when the regex matches, else the whole text; a `JSONDecodeError` is caught and
yields `None`. `jsonLoads` is the `json.loads` oracle. -/
def _extract_json_from_text (jsonLoads : String → Except Unit PyVal)
    (text : String) : Option PyVal :=
  match braceSpan text.toList with
  | some span =>
    match jsonLoads (String.mk span) with
    | .ok v => some v
    | .error _ => Option.none
  | Option.none =>
    match jsonLoads text with
    | .ok v => some v
    | .error _ => Option.none

/-- The replacement verdict built when no usable JSON object was extracted. -/
def parseFailVerdict : PyVal :=
  .dict
    [("is_valid", .bool false), ("validation_score", .int 0),
     ("feedback", .str "Unable to parse the validation response"),
     ("improvement_suggestions", .str "Retry with a clearer prompt")]

/-- The verdict returned when the Gemini call produced no response. -/
def noResponseVerdict : PyVal :=
  .dict
    [("is_valid", .bool false), ("validation_score", .int 0),
     ("feedback", .str "Errore API Gemini: Nessuna risposta ricevuta"),
     ("improvement_suggestions", .str "Verifica la connessione e riprova")]

/-- The verdict returned from the `except` clause, with the stringified
exception interpolated into the feedback. -/
def exceptionVerdict (msg : String) : PyVal :=
  .dict
    [("is_valid", .bool false), ("validation_score", .int 0),
     ("feedback", .str ("Error during validation: " ++ msg)),
     ("improvement_suggestions", .str "Check the connection and try again")]

/-- Embeds `ResultValidator.validate_result`, after the validation prompt is built.
`genContent` models `model.generate_content(...)` plus the `response.text`
read: `.error msg` is any exception (caught by the `except` clause), `.ok
none` a falsy response (`if response:` fails), `.ok (some text)` a response
with that text. A falsy extraction result is replaced by `parseFailVerdict`;
a truthy non-dict one makes the `validation_result.get("validation_score")`
in the logging call raise `AttributeError`, which the same `except` clause
converts to an exception verdict. -/
def validate_result (genContent : Except String (Option String))
    (jsonLoads : String → Except Unit PyVal) : PyVal :=
  match genContent with
  | .error msg => exceptionVerdict msg
  | .ok Option.none => noResponseVerdict
  | .ok (some text) =>
    let extracted :=
      match _extract_json_from_text jsonLoads text with
      | Option.none => parseFailVerdict
      | some v => if pyTruthy v then v else parseFailVerdict
    match extracted with
    | .dict kvs => .dict kvs
    | _ => exceptionVerdict "object has no attribute get"

/-! ## PromptBuilder templates and the optimization path (prompt_generator.py) -/

/-- Embeds `base_prompt_template.format(company_name=..., source_type=...,
optimization_instructions=...)` (base_prompt.py): the template text with the
three slots substituted (`source_type` occurs three times). -/
def base_prompt_template_format
    (company_name source_type optimization_instructions : String) : String :=
  "\nYOU ARE A FINANCIAL RESEARCH EXPERT specializing in locating authoritative and official financial data sources for multinational companies.\n\n" ++
  "TASK: Identify the most authoritative, specific, and up-to-date financial data source for \"" ++
  company_name ++ "\" (requested source type: " ++ source_type ++ ").\n\n" ++
  "INSTRUCTIONS:\n\n1. URL SELECTION\n" ++
  "- Provide the MOST SPECIFIC URL directly linking to the page or document containing the latest financial data.\n" ++
  "- Avoid generic URLs such as the company homepage or broad IR landing pages.\n" ++
  "- Prioritize URLs pointing to specific financial statements, reports, or filings over general pages.\n" ++
  "- Prefer official Investor Relations (IR) pages over aggregators or search engines.\n" ++
  "- For U.S. companies, SEC filings (10-K, 10-Q) are IDEAL; for EU companies, ESEF/XBRL reports are preferred.\n" ++
  "- PDF or XBRL documents are HIGHLY PREFERRED over HTML pages.\n\n" ++
  "2. REFERENCE YEAR\n" ++
  "- Identify the fiscal/reporting year of the financial data, NOT the publication year.\n" ++
  "- Choose the MOST RECENT period available (annual or quarterly).\n" ++
  "- Use numeric year format, e.g., \"2023\" or \"2023-2024\".\n\n" ++
  "3. SOURCE PRIORITY (based on " ++ source_type ++ "):\n\n" ++
  "- Annual Report: IR website > SEC filings > official PDFs > financial databases\n" ++
  "- Consolidated: official consolidated documents > IR website > financial databases\n" ++
  "- Quarterly: official quarterly reports > IR website > financial databases\n" ++
  "- Other types: IR website > official documents > reliable financial databases\n\n" ++
  "4. PRIORITIZATION OVERALL:\n" ++
  "Official IR page > Specific document/report > Financial database > Aggregator\n\n" ++
  "5. CONFIDENCE ASSESSMENT\n" ++
  "- HIGH: Direct official documents/reports from IR or regulator with clear recent fiscal year.\n" ++
  "- MEDIUM: Reliable financial databases or aggregated sources with recent data.\n" ++
  "- LOW: Indirect, outdated, or generic sources.\n\n" ++
  "RESPONSE FORMAT:\n\n" ++
  "Return a JSON object ONLY, with EXACT fields and no extra text or commentary:\n\n" ++
  "\x7b\n    \"url\": \"EXACT_SOURCE_URL\",\n    \"year\": \"REFERENCE_YEAR\",\n    \"confidence\": \"HIGH/MEDIUM/LOW\",\n    \"source_type\": \"" ++
  source_type ++ "\"\n\x7d\n\n" ++ optimization_instructions ++ "\n\n" ++
  "IMPORTANT: If multiple sources are found, select ONLY the best one according to the above criteria. Accuracy and relevance are critical.\n"

/-- External collaborators of the prompt-optimization path:
`generateContent` is `self.model.generate_content(...)` plus the
`response.text` read (error = any exception, caught by the `try`); `netloc`
is `urlparse(url).netloc` (error = the exception branch of the small `try`
around it). -/
structure OptEnv where
  generateContent : String → Except Unit String
  netloc : PyVal → Except Unit String

/-- Embeds `PromptGenerator._generate_scraping_based_prompt`: with no usable scraping
results (falsy tuple or no truthy element) a generic retry prompt; otherwise a
prompt whose optimization text embeds the scraped source type, domain, year
and confidence as hints. -/
def _generate_scraping_based_prompt (env : OptEnv) (company_name : String)
    (scraping_results : Option (PyVal × PyVal × PyVal × PyVal)) : String :=
  match scraping_results with
  | Option.none =>
    base_prompt_template_format company_name "Annual Report"
      "Be careful to search thoroughly, previous attempts have not produced valid results."
  | some (url, year, desc, conf) =>
    if !(pyTruthy url || pyTruthy year || pyTruthy desc || pyTruthy conf) then
      base_prompt_template_format company_name "Annual Report"
        "Be careful to search thoroughly, previous attempts have not produced valid results."
    else
      let domain_hint :=
        if pyTruthy url then
          match env.netloc url with
          | .ok domain =>
            "\n- Consider the domain " ++ domain ++
              " which seems promising for this search"
          | .error _ => ""
        else ""
      let year_hint :=
        if pyTruthy year then
          "\n- The fiscal year " ++ pyStr year ++
            " appears to be available, but check if more recent reports exist"
        else ""
      let optimization_text :=
        "\n        SUGGESTIONS BASED ON PREVIOUS SEARCHES:\n        - The source type \x27" ++
        pyStr desc ++ "\x27 seems appropriate for this company" ++ domain_hint ++
        year_hint ++
        "\n        - The previous search had a confidence level of \x27" ++
        pyStr conf ++ "\x27, try to improve it\n        "
      base_prompt_template_format company_name
        (if pyTruthy desc then pyStr desc else "Annual Report")
        optimization_text

/-- Embeds `PromptGenerator._create_optimization_request`: the f-string sent to the
model. `feedback.get(...)` raises `AttributeError` when `feedback` is not a
dict — and this call sits outside the `try` of `optimize_prompt`. -/
def _create_optimization_request (company_name : String) (feedback : PyVal)
    (current_prompt : String)
    (scraping_results : Option (PyVal × PyVal × PyVal × PyVal)) :
    Except PyErr String :=
  match feedback with
  | .dict fkvs =>
    let scraping_info :=
      match scraping_results with
      | Option.none => ""
      | some (url, year, desc, conf) =>
        "\n            Web scraping found the following information:\n            - URL: " ++
        (if pyTruthy url then pyStr url else "Not found") ++
        "\n            - Year: " ++
        (if pyTruthy year then pyStr year else "Not found") ++
        "\n            - Source type: " ++
        (if pyTruthy desc then pyStr desc else "Not identified") ++
        "\n            - Confidence: " ++ pyStr conf ++ "\n            "
    let problems :=
      match pyLookup fkvs "problems" with
      | some v => pyStr v
      | Option.none => "No data found or validated"
    let suggestions :=
      match pyLookup fkvs "suggestions" with
      | some v => pyStr v
      | Option.none => "N/A"
    let critical_points :=
      match pyLookup fkvs "critical_points" with
      | some v => pyStr v
      | Option.none => "N/A"
    .ok
      ("\n        YOU ARE AN EXPERT IN PROMPT ENGINEERING specializing in optimizing prompts for artificial intelligence systems.\n\n        TASK: Optimize the existing prompt to improve the search for financial data for the company \"" ++
       company_name ++
       "\".\n\n        FEEDBACK FROM THE LAST ATTEMPT:\n        - Identified issues: " ++
       problems ++ "\n        - Suggestions: " ++ suggestions ++
       "\n        - Critical points: " ++ critical_points ++ "\n\n        " ++
       scraping_info ++
       "\n\n        CURRENT PROMPT:\n        \x60\x60\x60\n        " ++
       current_prompt ++
       "\n        \x60\x60\x60\n\n        INSTRUCTIONS FOR OPTIMIZATION:\n        1. Maintain the general structure of the prompt\n        2. Add specific instructions to address the identified issues\n        3. Improve the precision of requests to obtain direct URLs to documents\n        4. Ensure the prompt explicitly requests the correct fiscal year\n        5. Strengthen search priorities based on the type of source requested\n\n        RETURN ONLY THE NEW OPTIMIZED PROMPT, WITHOUT ADDITIONAL EXPLANATIONS OR COMMENTS.\n        ")
  | _ => .error .attributeError

/-- The mutable state touched by `PromptGenerator.optimize_prompt`: the
per-company `optimization_counter` (a missing key reads as 0) and the
`company_specific_prompts` cache. -/
structure OptState where
  optimization_counter : String → Nat
  company_specific_prompts : String → Option String

/-- Result of one `optimize_prompt` invocation: the returned prompt (or the
propagated exception), the state afterwards, and how many
`generate_content` calls were made. -/
structure OptResult where
  prompt : Except PyErr String
  state : OptState
  modelCalls : Nat

/-- Embeds `PromptGenerator.optimize_prompt`: increment the company's counter; above
5, short-circuit to the scraping-based prompt with no model call; otherwise
build the optimization request (may raise), call the model inside `try`
(any exception falls back to the scraping-based prompt), and accept the
rewrite only if it is ≥ 100 characters and contains the literal
`"{company_name}"` placeholder. -/
def optimize_prompt (env : OptEnv) (st : OptState) (company_name : String)
    (feedback : PyVal) (current_prompt : String)
    (scraping_results : Option (PyVal × PyVal × PyVal × PyVal)) : OptResult :=
  let cnt := st.optimization_counter company_name + 1
  let st1 : OptState :=
    { st with
      optimization_counter :=
        fun c => if c = company_name then cnt else st.optimization_counter c }
  if cnt > 5 then
    ⟨.ok (_generate_scraping_based_prompt env company_name scraping_results),
      st1, 0⟩
  else
    match _create_optimization_request company_name feedback current_prompt
        scraping_results with
    | .error e => ⟨.error e, st1, 0⟩
    | .ok request =>
      match env.generateContent request with
      | .error _ =>
        ⟨.ok (_generate_scraping_based_prompt env company_name
          scraping_results), st1, 1⟩
      | .ok text =>
        let optimized_prompt := text.trim
        if optimized_prompt.length < 100 ||
            !(decide ("{company_name}".toList <:+: optimized_prompt.toList)) then
          ⟨.ok (_generate_scraping_based_prompt env company_name
            scraping_results), st1, 1⟩
        else
          ⟨.ok optimized_prompt,
            { st1 with
              company_specific_prompts :=
                fun c =>
                  if c = company_name then some optimized_prompt
                  else st1.company_specific_prompts c },
            1⟩

/-- Iterates `optimize_prompt`: `n` successive invocations with the same arguments,
returning the final state and the total number of `generate_content` calls. -/
def optimize_iter (env : OptEnv) (company_name : String) (feedback : PyVal)
    (current_prompt : String)
    (scraping_results : Option (PyVal × PyVal × PyVal × PyVal)) :
    OptState → Nat → OptState × Nat
  | st, 0 => (st, 0)
  | st, n + 1 =>
    let r := optimize_prompt env st company_name feedback current_prompt
      scraping_results
    let rest := optimize_iter env company_name feedback current_prompt
      scraping_results r.state n
    (rest.1, r.modelCalls + rest.2)

/-! ## Re-run guard of the batch driver: `main` (Data_Extraction/main.py) -/

/-- One input row of the driving CSV: `row.ID`, `row.NAME`, `row.VARIABLE`. -/
structure MainRow where
  id : PyVal
  name : String
  var : PyVal

/-- The report file a company's records are persisted in:
`reports/{company_name.replace(' ', '_')}_report.json`. With a one-character
pattern, Python `str.replace` is a character-wise substitution. -/
def report_key (company_name : String) : String :=
  String.mk (company_name.toList.map (fun c => if c = ' ' then '_' else c)) ++
    "_report.json"

/-- The report object appended for a processed row, with the five values
unpacked from `finder.find_financial_source`. -/
def mainReport (row : MainRow) (url value currency refyear page_status : PyVal) :
    PyVal :=
  .dict
    [("ID", row.id), ("NAME", .str row.name), ("VARIABLE", row.var),
     ("VALUE", value), ("CURRENCY", currency), ("REFYEAR", refyear),
     ("SRC", url), ("Page Status", page_status)]

/-- Pointwise update of the persisted-report store (one JSON file per key). -/
def storeUpdate (store : String → Option PyVal) (k : String) (v : PyVal) :
    String → Option PyVal :=
  fun k' => if k' = k then some v else store k'

/-- The body of the per-row loop of `main` (Data_Extraction/main.py):
skip the company when its persisted record is a list of more than five
entries (before any discovery); otherwise run one discovery
(`find : name → variable → (url, value, currency, refyear, page_status)`,
an oracle for `finder.find_financial_source`), re-read the record, skip the
write at six or more entries, and otherwise append exactly one report
(wrapping a non-list record together with the new report). Returns the new
store and the number of discovery calls made (0 or 1). -/
def mainStep (find : String → PyVal → PyVal × PyVal × PyVal × PyVal × PyVal)
    (store : String → Option PyVal) (row : MainRow) :
    (String → Option PyVal) × Nat :=
  let key := report_key row.name
  let skip :=
    match store key with
    | some (.list xs) => decide (xs.length > 5)
    | _ => false
  if skip then (store, 0)
  else
    let (url, value, currency, refyear, page_status) := find row.name row.var
    let report := mainReport row url value currency refyear page_status
    match store key with
    | some (.list xs) =>
      if xs.length ≥ 6 then (store, 1)
      else (storeUpdate store key (.list (xs ++ [report])), 1)
    | some other => (storeUpdate store key (.list [other, report]), 1)
    | Option.none => (storeUpdate store key (.list [report]), 1)

/-! ## URL normalization: `WebScraperModule._normalize_url` (web_scraper.py) -/

/-- Python `url.lstrip("/")`: drop every leading slash. -/
def lstripSlashes : List Char → List Char
  | [] => []
  | c :: rest => if c = '/' then lstripSlashes rest else c :: rest

/-- Python `s.split(sep)[0]` for a one-character separator: the prefix before
the first occurrence of `sep` (the whole string when absent). -/
def takeBeforeChar (sep : Char) : List Char → List Char
  | [] => []
  | c :: rest => if c = sep then [] else c :: takeBeforeChar sep rest

/-- First block of `_normalize_url`: prefix `https://` (after stripping
leading slashes) unless the URL already starts with `http://` or `https://`. -/
def ensureScheme (url : List Char) : List Char :=
  if "http://".toList.isPrefixOf url || "https://".toList.isPrefixOf url then
    url
  else "https://".toList ++ lstripSlashes url

/-- Second block of `_normalize_url`:
`url.split("?")[0].split("#")[0]`. -/
def stripQueryFragment (u : List Char) : List Char :=
  takeBeforeChar '#' (takeBeforeChar '?' u)

/-- Third block of `_normalize_url`: append `/` unless the URL already ends
with it. -/
def ensureTrailingSlash (u : List Char) : List Char :=
  if u.getLast? = some '/' then u else u ++ ['/']

/-- Embeds `WebScraperModule._normalize_url` over the characters of the URL string:
its three successive blocks. -/
def _normalize_url (url : List Char) : List Char :=
  ensureTrailingSlash (stripQueryFragment (ensureScheme url))

/-! ## Predicates and concrete environments used in the claims -/

/-- The verdict shape required on any validation failure: `is_valid` false,
score 0, and a non-empty feedback string. -/
def invalidZeroVerdict (v : PyVal) : Prop :=
  pyDictGet v "is_valid" = .ok (.bool false) ∧
  pyDictGet v "validation_score" = .ok (.int 0) ∧
  ∃ s, s ≠ "" ∧ pyDictGet v "feedback" = .ok (.str s)

/-- Fallback attempt `i` fails to yield a live URL without leaving the
dict/None discipline: it produces `None`, or a dict whose URL the probe
reports dead. -/
def synthNoLive (env : ScrapeEnv) (i : Nat) : Prop :=
  ai_web_scraping (env.synth i) = PyVal.none ∨
  ∃ kvs, ai_web_scraping (env.synth i) = .dict kvs ∧
    is_page_not_found env.httpGet ((pyLookup kvs "url").getD .none) = true

/-- A fallback attempt whose synthesized routine produces a four-field
candidate dict with a dead URL. -/
def deadDictAttempt : SynthAttempt :=
  ⟨some "code", true,
    .completes
      [("result",
        .dict
          [("url", .str "https://dead.example/x"), ("year", .str "2023"),
           ("confidence", .str "HIGH"),
           ("source_type", .str "Annual Report")])]⟩

/-- One discovery call in which every AI-lookup attempt yields no response,
the synthesized routine always produces the dead four-field candidate, and
every probe reports 404 (so no attempt ever yields a live URL). -/
def envDeadCandidate : ScrapeEnv :=
  ⟨1, fun _ => Option.none, id, fun _ => .error (), fun _ => deadDictAttempt,
    fun _ => .ok 404⟩

/-- One discovery call in which the AI lookup yields nothing and the first
synthesis attempt produces a live candidate that carries only a `url` field. -/
def envLiveThin : ScrapeEnv :=
  ⟨1, fun _ => Option.none, id, fun _ => .error (),
    fun _ =>
      ⟨some "code", true,
        .completes [("result", .dict [("url", .str "https://live.example/")])]⟩,
    fun _ => .ok 200⟩

/-- One discovery call in which the synthesized routine binds `result` to a
string, a non-dict value. -/
def envNonDictResult : ScrapeEnv :=
  ⟨1, fun _ => Option.none, id, fun _ => .error (),
    fun _ => ⟨some "code", true, .completes [("result", .str "oops")]⟩,
    fun _ => .ok 200⟩

/-- One discovery call in which every external step fails: no model
responses, raising synthesized code, all probes 404. -/
def envAllFail : ScrapeEnv :=
  ⟨2, fun _ => Option.none, id, fun _ => .error (),
    fun _ => ⟨Option.none, true, .raises⟩, fun _ => .ok 404⟩

/-- One discovery call in which the AI lookup yields nothing, the first
synthesis attempt yields nothing, and the second produces a live four-field
candidate. -/
def envSecondLive : ScrapeEnv :=
  ⟨2, fun _ => Option.none, id, fun _ => .error (),
    fun i =>
      if i = 0 then ⟨Option.none, true, .raises⟩
      else
        ⟨some "code", true,
          .completes
            [("result",
              .dict
                [("url", .str "https://x.test/doc.pdf"), ("year", .str "2023"),
                 ("confidence", .str "HIGH"),
                 ("source_type", .str "Annual Report")])]⟩,
    fun _ => .ok 200⟩

/-- The report built by `mainStep` from the oracle's five values. -/
def mainReportOf (find : String → PyVal → PyVal × PyVal × PyVal × PyVal × PyVal)
    (row : MainRow) : PyVal :=
  let (url, value, currency, refyear, page_status) := find row.name row.var
  mainReport row url value currency refyear page_status

/-! ## Theorems -/

/-- C5: for every URL and every network behaviour, `is_page_not_found`
reports dead exactly when the GET raises a network-level exception or returns
status 403 or 404; every other status (200 included) is alive; the function
is total, so it never raises. -/
theorem is_page_not_found_dead_iff (httpGet : HttpOracle) (url : PyVal) :
    is_page_not_found httpGet url = true ↔
      (∃ e, httpGet url = .error e) ∨ httpGet url = .ok 403 ∨
        httpGet url = .ok 404 := by
  unfold is_page_not_found
  cases h : httpGet url with
  | error e => simp
  | ok s =>
    simp only [Bool.or_eq_true, decide_eq_true_eq, Except.ok.injEq]
    constructor
    · rintro (rfl | rfl)
      · exact Or.inr (Or.inl rfl)
      · exact Or.inr (Or.inr rfl)
    · rintro (⟨e, he⟩ | h403 | h404)
      · exact absurd he (by simp)
      · exact Or.inl h403
      · exact Or.inr h404

/-- C3 counterexample: a synthesized routine that binds `result` to a
non-dict value makes `load_and_run_code` return that value unchanged — not
`None` as the claim states. -/
theorem load_and_run_code_nondict_counterexample :
    load_and_run_code (.completes [("result", .str "oops")]) = .str "oops" ∧
      load_and_run_code (.completes [("result", .str "oops")]) ≠ .none := by
  refine ⟨rfl, ?_⟩
  have h : load_and_run_code (.completes [("result", .str "oops")]) =
      .str "oops" := rfl
  rw [h]
  simp

/-- C3 (amended): `load_and_run_code` returns `None` when execution raises
and when the `result` binding is absent; a bound dict is returned exactly;
but a non-dict binding is returned as-is, not treated as failure. -/
theorem load_and_run_code_amended :
    load_and_run_code .raises = .none ∧
    (∀ vars, pyLookup vars "result" = Option.none →
      load_and_run_code (.completes vars) = .none) ∧
    (∀ vars kvs, pyLookup vars "result" = some (.dict kvs) →
      load_and_run_code (.completes vars) = .dict kvs) := by
  refine ⟨rfl, ?_, ?_⟩
  · intro vars h
    simp [load_and_run_code, h]
  · intro vars kvs h
    simp [load_and_run_code, h]

/-- Witness for C3: the spec's own example mapping is returned exactly, and a
routine that leaves no `result` binding yields `None`. -/
theorem load_and_run_code_amended_witness :
    load_and_run_code (.completes [("other", .int 1)]) = .none ∧
    load_and_run_code
        (.completes
          [("result",
            .dict
              [("url", .str "https://x.test/doc.pdf"), ("year", .str "2023"),
               ("confidence", .str "HIGH"),
               ("source_type", .str "Annual Report")])]) =
      .dict
        [("url", .str "https://x.test/doc.pdf"), ("year", .str "2023"),
         ("confidence", .str "HIGH"), ("source_type", .str "Annual Report")] :=
  ⟨load_and_run_code_amended.2.1 [("other", .int 1)] rfl,
    load_and_run_code_amended.2.2 _ _ rfl⟩

/-- The separator character does not survive `takeBeforeChar`. -/
theorem takeBeforeChar_not_mem (sep : Char) (l : List Char) :
    sep ∉ takeBeforeChar sep l := by
  induction l with
  | nil => simp [takeBeforeChar]
  | cons c rest ih =>
    simp only [takeBeforeChar]
    split
    · simp
    · rename_i hne
      simp only [List.mem_cons]
      rintro (rfl | hmem)
      · exact hne rfl
      · exact ih hmem

/-- Function `takeBeforeChar` only keeps characters of the input. -/
theorem takeBeforeChar_subset (sep : Char) (l : List Char) :
    ∀ x, x ∈ takeBeforeChar sep l → x ∈ l := by
  induction l with
  | nil => simp [takeBeforeChar]
  | cons c rest ih =>
    intro x hx
    simp only [takeBeforeChar] at hx
    split at hx
    · simp at hx
    · rcases List.mem_cons.mp hx with rfl | hmem
      · exact List.mem_cons_self _ _
      · exact List.mem_cons_of_mem _ (ih x hmem)

/-- Function `takeBeforeChar` is the identity when the separator is absent. -/
theorem takeBeforeChar_eq_self (sep : Char) (l : List Char)
    (h : sep ∉ l) : takeBeforeChar sep l = l := by
  induction l with
  | nil => rfl
  | cons c rest ih =>
    simp only [List.mem_cons, not_or] at h
    have hcs : ¬(c = sep) := fun hc => h.1 hc.symm
    simp only [takeBeforeChar, if_neg hcs]
    rw [ih h.2]

/-- Function `takeBeforeChar` commutes with a separator-free prefix. -/
theorem takeBeforeChar_append (sep : Char) (p t : List Char)
    (h : sep ∉ p) : takeBeforeChar sep (p ++ t) = p ++ takeBeforeChar sep t := by
  induction p with
  | nil => rfl
  | cons c rest ih =>
    simp only [List.mem_cons, not_or] at h
    have hcs : ¬(c = sep) := fun hc => h.1 hc.symm
    simp only [List.cons_append, takeBeforeChar, if_neg hcs, List.append_eq]
    rw [ih h.2]

/-- Bridge between the executable `List.isPrefixOf` test used by the embedded
code and the propositional start-segment relation. -/
theorem isPrefixOf_eq_true_iff (p l : List Char) :
    p.isPrefixOf l = true ↔ p <+: l :=
  List.isPrefixOf_iff_prefix

/-- Output of `ensureScheme` starts with one of the two schemes. -/
theorem ensureScheme_starts_with_scheme (url : List Char) :
    "http://".toList <+: ensureScheme url ∨
      "https://".toList <+: ensureScheme url := by
  unfold ensureScheme
  split
  · rename_i hc
    rcases Bool.or_eq_true _ _ |>.mp hc with h7 | h8
    · exact Or.inl (isPrefixOf_eq_true_iff _ _ |>.mp h7)
    · exact Or.inr (isPrefixOf_eq_true_iff _ _ |>.mp h8)
  · exact Or.inr ⟨lstripSlashes url, rfl⟩

/-- Function `stripQueryFragment` removes every query and fragment character. -/
theorem stripQueryFragment_not_mem (u : List Char) :
    '?' ∉ stripQueryFragment u ∧ '#' ∉ stripQueryFragment u := by
  refine ⟨fun hx => ?_, takeBeforeChar_not_mem '#' _⟩
  exact takeBeforeChar_not_mem '?' u (takeBeforeChar_subset '#' _ _ hx)

/-- Function `stripQueryFragment` keeps a separator-free start segment. -/
theorem stripQueryFragment_keeps_start (u p : List Char) (hq : '?' ∉ p)
    (hh : '#' ∉ p) (h : p <+: u) : p <+: stripQueryFragment u := by
  obtain ⟨t, ht⟩ := h
  rw [stripQueryFragment, ← ht, takeBeforeChar_append _ _ _ hq,
    takeBeforeChar_append _ _ _ hh]
  exact ⟨_, rfl⟩

/-- Output of `ensureTrailingSlash` ends with a slash. -/
theorem ensureTrailingSlash_getLast (u : List Char) :
    (ensureTrailingSlash u).getLast? = some '/' := by
  unfold ensureTrailingSlash
  split
  · assumption
  · simp

/-- C10: `_normalize_url` is idempotent, and its output always starts with
`http://` or `https://`, contains no query or fragment character, and ends
with a slash. -/
theorem _normalize_url_idempotent_wellformed (url : List Char) :
    _normalize_url (_normalize_url url) = _normalize_url url ∧
    ("http://".toList <+: _normalize_url url ∨
      "https://".toList <+: _normalize_url url) ∧
    '?' ∉ _normalize_url url ∧ '#' ∉ _normalize_url url ∧
    (_normalize_url url).getLast? = some '/' := by
  have hq7 : '?' ∉ "http://".toList := by decide
  have hq8 : '?' ∉ "https://".toList := by decide
  have hh7 : '#' ∉ "http://".toList := by decide
  have hh8 : '#' ∉ "https://".toList := by decide
  have key : ∀ v : List Char,
      ("http://".toList <+: _normalize_url v ∨
        "https://".toList <+: _normalize_url v) ∧
      '?' ∉ _normalize_url v ∧ '#' ∉ _normalize_url v ∧
      (_normalize_url v).getLast? = some '/' := by
    intro v
    have hpre2 : "http://".toList <+: stripQueryFragment (ensureScheme v) ∨
        "https://".toList <+: stripQueryFragment (ensureScheme v) := by
      rcases ensureScheme_starts_with_scheme v with h | h
      · exact Or.inl (stripQueryFragment_keeps_start _ _ hq7 hh7 h)
      · exact Or.inr (stripQueryFragment_keeps_start _ _ hq8 hh8 h)
    have hnm := stripQueryFragment_not_mem (ensureScheme v)
    unfold _normalize_url ensureTrailingSlash
    split
    · exact ⟨hpre2, hnm.1, hnm.2, by assumption⟩
    · refine ⟨?_, ?_, ?_, by simp⟩
      · rcases hpre2 with ⟨t, ht⟩ | ⟨t, ht⟩
        · exact Or.inl ⟨t ++ ['/'], by rw [← ht]; simp⟩
        · exact Or.inr ⟨t ++ ['/'], by rw [← ht]; simp⟩
      · intro hx
        rcases List.mem_append.mp hx with hx | hx
        · exact hnm.1 hx
        · simp at hx
      · intro hx
        rcases List.mem_append.mp hx with hx | hx
        · exact hnm.2 hx
        · simp at hx
  have fix : ∀ s : List Char,
      ("http://".toList <+: s ∨ "https://".toList <+: s) →
      '?' ∉ s → '#' ∉ s → s.getLast? = some '/' → _normalize_url s = s := by
    intro s hpre hq hh hslash
    have hsch : ("http://".toList.isPrefixOf s ||
        "https://".toList.isPrefixOf s) = true := by
      rcases hpre with h | h
      · exact Bool.or_eq_true _ _ |>.mpr
          (Or.inl (isPrefixOf_eq_true_iff _ _ |>.mpr h))
      · exact Bool.or_eq_true _ _ |>.mpr
          (Or.inr (isPrefixOf_eq_true_iff _ _ |>.mpr h))
    unfold _normalize_url ensureScheme stripQueryFragment ensureTrailingSlash
    rw [if_pos hsch, takeBeforeChar_eq_self _ _ hq,
      takeBeforeChar_eq_self _ _ hh, if_pos hslash]
  obtain ⟨h1, h2, h3, h4⟩ := key url
  exact ⟨fix _ h1 h2 h3 h4, h1, h2, h3, h4⟩

/-- Under an always-quota provider, the retry loop sleeps once per attempt
(with the suggested or default delay), makes one call per attempt, and
returns `None` at exhaustion. -/
theorem callLoop_all_quota (gen : Nat → GenOutcome) (d : Nat → Option Nat)
    (h : ∀ i, gen i = .quota (d i)) :
    ∀ (fuel r : Nat),
      callLoop gen r fuel =
        ⟨Option.none, ∑ i ∈ Finset.range fuel, quotaDelay (d (r + i)), fuel,
          fuel⟩ := by
  intro fuel
  induction fuel with
  | zero => intro r; simp [callLoop]
  | succ n ih =>
    intro r
    simp only [callLoop, h r, ih (r + 1)]
    have hsum : quotaDelay (d r) +
        ∑ i ∈ Finset.range n, quotaDelay (d (r + 1 + i)) =
        ∑ i ∈ Finset.range (n + 1), quotaDelay (d (r + i)) := by
      rw [Finset.sum_range_succ', Nat.add_comm]
      congr 1
      apply Finset.sum_congr rfl
      intro i _
      congr 2
      omega
    simp only [CallTrace.mk.injEq]
    exact ⟨trivial, hsum, trivial, trivial⟩

/-- A non-quota failure on attempt `k` (after `k` quota attempts) stops the
loop at once: `k` sleeps, `k + 1` calls, result `None`. -/
theorem callLoop_abort (gen : Nat → GenOutcome) :
    ∀ (k fuel r : Nat), k < fuel →
      (∀ i, i < k → ∃ di, gen (r + i) = .quota di) →
      gen (r + k) = .failure →
      (callLoop gen r fuel).result = Option.none ∧
        (callLoop gen r fuel).sleeps = k ∧
        (callLoop gen r fuel).calls = k + 1 := by
  intro k
  induction k with
  | zero =>
    intro fuel r hk hq hf
    cases fuel with
    | zero => omega
    | succ n =>
      simp only [Nat.add_zero] at hf
      simp [callLoop, hf]
  | succ k ih =>
    intro fuel r hk hq hf
    cases fuel with
    | zero => omega
    | succ n =>
      obtain ⟨d0, hd0⟩ := hq 0 (Nat.succ_pos k)
      simp only [Nat.add_zero] at hd0
      have hrec := ih n (r + 1) (by omega)
        (fun i hi => by
          obtain ⟨di, hdi⟩ := hq (i + 1) (by omega)
          exact ⟨di, by rw [show r + 1 + i = r + (i + 1) by omega]; exact hdi⟩)
        (by rw [show r + 1 + k = r + (k + 1) by omega]; exact hf)
      simp only [callLoop, hd0]
      exact ⟨hrec.1, by rw [hrec.2.1], by rw [hrec.2.2]⟩

/-- C4: (a) when the provider signals quota-exceeded on every attempt,
`call` sleeps and retries exactly `max_retries` times, returns `None`, and
the total sleep is the sum of the suggested delays (default 60 when absent);
(b) a non-quota failure aborts the loop immediately — no further call, no
further sleep — returning `None`. -/
theorem call_quota_retries_and_abort :
    (∀ (gen : Nat → GenOutcome) (d : Nat → Option Nat) (m : Nat),
      (∀ i, gen i = .quota (d i)) →
      call gen m =
        ⟨Option.none, ∑ i ∈ Finset.range m, quotaDelay (d i), m, m⟩) ∧
    (∀ (gen : Nat → GenOutcome) (m k : Nat), k < m →
      (∀ i, i < k → ∃ di, gen i = .quota di) → gen k = .failure →
      (call gen m).result = Option.none ∧ (call gen m).sleeps = k ∧
        (call gen m).calls = k + 1) := by
  constructor
  · intro gen d m h
    unfold call
    rw [callLoop_all_quota gen d h m 0]
    simp
  · intro gen m k hk hq hf
    unfold call
    exact callLoop_abort gen k m 0 hk (by simpa using hq) (by simpa using hf)

/-- Witness for C4: two quota attempts with a suggested 5-second delay give
two sleeps totalling 10 and a `None` result; a failure on attempt 1 after one
quota attempt stops after 2 calls and 1 sleep. -/
theorem call_quota_retries_and_abort_witness :
    call (fun _ => .quota (some 5)) 2 = ⟨Option.none, 10, 2, 2⟩ ∧
    ((call (fun i => if i = 0 then .quota Option.none else .failure) 3).result
        = Option.none ∧
      (call (fun i => if i = 0 then .quota Option.none else .failure) 3).sleeps
        = 1 ∧
      (call (fun i => if i = 0 then .quota Option.none else .failure) 3).calls
        = 2) := by
  constructor
  · have h := call_quota_retries_and_abort.1 (fun _ => .quota (some 5))
      (fun _ => some 5) 2 (fun _ => rfl)
    rw [h]
    simp [Finset.sum_range_succ, quotaDelay]
  · exact call_quota_retries_and_abort.2
      (fun i => if i = 0 then .quota Option.none else .failure) 3 1
      (by omega)
      (fun i hi => ⟨Option.none, by
        have : i = 0 := by omega
        subst this
        rfl⟩)
      rfl

/-- C6: whenever no JSON object can be extracted from the response text, or
the model call raises, or no response is received, `validate_result` returns
(never raises — it is total) a verdict with `is_valid` false, score 0 and a
non-empty feedback string. -/
theorem validate_result_default_on_failure :
    (∀ (jl : String → Except Unit PyVal) (text : String),
      _extract_json_from_text jl text = Option.none →
      invalidZeroVerdict (validate_result (.ok (some text)) jl)) ∧
    (∀ (jl : String → Except Unit PyVal) (msg : String),
      invalidZeroVerdict (validate_result (.error msg) jl)) ∧
    (∀ jl : String → Except Unit PyVal,
      invalidZeroVerdict (validate_result (.ok Option.none) jl)) := by
  refine ⟨?_, ?_, ?_⟩
  · intro jl text h
    have hv : validate_result (.ok (some text)) jl = parseFailVerdict := by
      simp [validate_result, h, parseFailVerdict]
    rw [hv]
    exact ⟨rfl, rfl, "Unable to parse the validation response", by decide, rfl⟩
  · intro jl msg
    refine ⟨rfl, rfl, "Error during validation: " ++ msg, ?_, rfl⟩
    intro hcontra
    have hlen := congrArg String.length hcontra
    rw [String.length_append] at hlen
    have h25 : ("Error during validation: ").length = 25 := rfl
    have h0 : ("" : String).length = 0 := rfl
    omega
  · intro jl
    exact ⟨rfl, rfl, "Errore API Gemini: Nessuna risposta ricevuta", by decide,
      rfl⟩

/-- Witness for C6: a response text with no JSON object, a failing call, and
a missing response each get the default invalid verdict. -/
theorem validate_result_default_on_failure_witness :
    invalidZeroVerdict
        (validate_result (.ok (some "no json here")) (fun _ => .error ())) ∧
    invalidZeroVerdict (validate_result (.error "boom") (fun _ => .error ())) ∧
    invalidZeroVerdict (validate_result (.ok Option.none) (fun _ => .error ())) :=
  ⟨validate_result_default_on_failure.1 (fun _ => .error ()) "no json here" rfl,
    validate_result_default_on_failure.2.1 (fun _ => .error ()) "boom",
    validate_result_default_on_failure.2.2 (fun _ => .error ())⟩

/-- C7: when a company's optimization counter already exceeds 5,
`optimize_prompt` returns the scraping-results-based prompt and makes zero
`generate_content` calls. -/
theorem optimize_prompt_short_circuit (env : OptEnv) (st : OptState)
    (company_name : String) (feedback : PyVal) (current_prompt : String)
    (scraping_results : Option (PyVal × PyVal × PyVal × PyVal))
    (h : st.optimization_counter company_name > 5) :
    (optimize_prompt env st company_name feedback current_prompt
        scraping_results).prompt =
      .ok (_generate_scraping_based_prompt env company_name scraping_results) ∧
    (optimize_prompt env st company_name feedback current_prompt
        scraping_results).modelCalls = 0 := by
  have hgt : st.optimization_counter company_name + 1 > 5 := by omega
  constructor <;> simp [optimize_prompt, hgt]

/-- Witness for C7: a company with counter 6 gets the scraping-based prompt
and no model call. -/
theorem optimize_prompt_short_circuit_witness :
    (optimize_prompt ⟨fun _ => .error (), fun _ => .error ()⟩
        ⟨fun _ => 6, fun _ => Option.none⟩ "Acme Corp" (.dict []) "p"
        Option.none).prompt =
      .ok (_generate_scraping_based_prompt
        ⟨fun _ => .error (), fun _ => .error ()⟩ "Acme Corp" Option.none) ∧
    (optimize_prompt ⟨fun _ => .error (), fun _ => .error ()⟩
        ⟨fun _ => 6, fun _ => Option.none⟩ "Acme Corp" (.dict []) "p"
        Option.none).modelCalls = 0 :=
  optimize_prompt_short_circuit _ _ _ _ _ _ (by decide)

/-- Every `optimize_prompt` invocation increments the company's counter by
one, in all branches. -/
theorem optimize_prompt_counter (env : OptEnv) (st : OptState) (c : String)
    (fb : PyVal) (cp : String) (sr : Option (PyVal × PyVal × PyVal × PyVal)) :
    (optimize_prompt env st c fb cp sr).state.optimization_counter c =
      st.optimization_counter c + 1 := by
  unfold optimize_prompt
  repeat' split
  all_goals simp
    [apply_ite (fun r : OptResult => r.state.optimization_counter c)]

/-- Each `optimize_prompt` invocation makes at most one model call, and none
at all once the incremented counter passes 5. -/
theorem optimize_prompt_calls_le (env : OptEnv) (st : OptState) (c : String)
    (fb : PyVal) (cp : String) (sr : Option (PyVal × PyVal × PyVal × PyVal)) :
    (optimize_prompt env st c fb cp sr).modelCalls ≤ 1 ∧
    (st.optimization_counter c + 1 > 5 →
      (optimize_prompt env st c fb cp sr).modelCalls = 0) := by
  unfold optimize_prompt
  constructor
  · repeat' split
    all_goals simp only [apply_ite (fun r : OptResult => r.modelCalls)]
    all_goals repeat' split
    all_goals simp
  · intro hgt
    simp [hgt]

/-- Over `n` same-company invocations the counter advances by exactly `n`,
and the model calls are bounded by how much of the 1–5 counter window the
run traverses. -/
theorem optimize_iter_counter_calls (env : OptEnv) (c : String) (fb : PyVal)
    (cp : String) (sr : Option (PyVal × PyVal × PyVal × PyVal)) :
    ∀ (n : Nat) (st : OptState),
      (optimize_iter env c fb cp sr st n).1.optimization_counter c =
        st.optimization_counter c + n ∧
      (optimize_iter env c fb cp sr st n).2 ≤
        min 5 (st.optimization_counter c + n) -
          min 5 (st.optimization_counter c) := by
  intro n
  induction n with
  | zero => intro st; simp [optimize_iter]
  | succ m ih =>
    intro st
    have hc := optimize_prompt_counter env st c fb cp sr
    have hcalls := optimize_prompt_calls_le env st c fb cp sr
    have hrec := ih (optimize_prompt env st c fb cp sr).state
    rw [hc] at hrec
    simp only [optimize_iter]
    constructor
    · rw [hrec.1]
      omega
    · have h1 := hrec.2
      by_cases hgt : st.optimization_counter c + 1 > 5
      · have h0 := hcalls.2 hgt
        rw [h0]
        omega
      · have hle := hcalls.1
        omega

/-- C8 counterexample: six `optimize_prompt` invocations for one company
drive its optimization counter to 6, violating the claimed bound of 5. -/
theorem optimization_counter_exceeds_max_counterexample :
    (optimize_iter ⟨fun _ => .error (), fun _ => .error ()⟩ "Acme Corp"
          (.dict []) "p" Option.none ⟨fun _ => 0, fun _ => Option.none⟩
          6).1.optimization_counter "Acme Corp" = 6 ∧
    ¬((optimize_iter ⟨fun _ => .error (), fun _ => .error ()⟩ "Acme Corp"
          (.dict []) "p" Option.none ⟨fun _ => 0, fun _ => Option.none⟩
          6).1.optimization_counter "Acme Corp" ≤ 5) := by
  constructor
  · decide
  · decide

/-- C8 (amended): the per-company counter equals the number of
`optimize_prompt` invocations — so it is not bounded by 5 — but the number
of model-backed optimization attempts per company never exceeds 5. -/
theorem optimization_counter_counts_invocations_bounded_calls
    (env : OptEnv) (c : String) (fb : PyVal) (cp : String)
    (sr : Option (PyVal × PyVal × PyVal × PyVal)) (n : Nat) (st0 : OptState)
    (h0 : st0.optimization_counter c = 0) :
    (optimize_iter env c fb cp sr st0 n).1.optimization_counter c = n ∧
    (optimize_iter env c fb cp sr st0 n).2 ≤ 5 := by
  have h := optimize_iter_counter_calls env c fb cp sr n st0
  rw [h0] at h
  refine ⟨by simpa using h.1, le_trans h.2 (by omega)⟩

/-- Witness for C8 (amended): seven invocations leave the counter at 7 while
at most five model calls were made. -/
theorem optimization_counter_counts_invocations_bounded_calls_witness :
    (optimize_iter ⟨fun _ => .error (), fun _ => .error ()⟩ "ESA Corp"
          (.dict []) "p" Option.none ⟨fun _ => 0, fun _ => Option.none⟩
          7).1.optimization_counter "ESA Corp" = 7 ∧
    (optimize_iter ⟨fun _ => .error (), fun _ => .error ()⟩ "ESA Corp"
          (.dict []) "p" Option.none ⟨fun _ => 0, fun _ => Option.none⟩
          7).2 ≤ 5 :=
  optimization_counter_counts_invocations_bounded_calls _ _ _ _ _ 7 _ rfl

/-- Setting an absent key appends one entry. -/
theorem pySetEntries_length_of_not_mem (kvs : List (String × PyVal))
    (k : String) (v : PyVal) (h : pyLookup kvs k = Option.none) :
    (pySetEntries kvs k v).length = kvs.length + 1 := by
  induction kvs with
  | nil => rfl
  | cons kv rest ih =>
    obtain ⟨k', v'⟩ := kv
    simp only [pyLookup] at h
    by_cases hk : k' = k
    · rw [if_pos hk] at h
      exact absurd h (by simp)
    · rw [if_neg hk] at h
      simp only [pySetEntries, if_neg hk, List.length_cons]
      rw [ih h]

/-- When every synthesis attempt yields `None`, the fallback loop ends with
`data` bound to `None`. -/
theorem phase2Loop_all_none (env : ScrapeEnv)
    (h : ∀ i, ai_web_scraping (env.synth i) = PyVal.none) :
    ∀ (fuel a : Nat) (d : Option PyVal), 1 ≤ fuel →
      phase2Loop env d a fuel = .ok (some PyVal.none) := by
  intro fuel
  induction fuel with
  | zero => intro a d h1; omega
  | succ n ih =>
    intro a d _
    have hstep : phase2Loop env d a (n + 1) =
        phase2Loop env (some PyVal.none) (a + 1) n := by
      simp [phase2Loop, h a]
    rw [hstep]
    cases n with
    | zero => rfl
    | succ m => exact ih (a + 1) (some PyVal.none) (by omega)

/-- When attempts before `j` yield `None` or a dead-URL dict, and attempt `j`
yields a dict whose URL probes live, the fallback loop breaks at attempt `j`
with that candidate (tagged "Page found"). -/
theorem phase2Loop_first_live (env : ScrapeEnv) :
    ∀ (j fuel a : Nat) (d : Option PyVal) (kvs : List (String × PyVal)),
      j < fuel →
      (∀ i, i < j → synthNoLive env (a + i)) →
      ai_web_scraping (env.synth (a + j)) = .dict kvs →
      is_page_not_found env.httpGet ((pyLookup kvs "url").getD .none) = false →
      phase2Loop env d a fuel =
        .ok (some (.dict (pySetEntries kvs "response_status"
          (.str "Page found")))) := by
  intro j
  induction j with
  | zero =>
    intro fuel a d kvs hfuel hno hdict hlive
    cases fuel with
    | zero => omega
    | succ n =>
      rw [Nat.add_zero] at hdict
      simp [phase2Loop, hdict, hlive]
  | succ m ih =>
    intro fuel a d kvs hfuel hno hdict hlive
    cases fuel with
    | zero => omega
    | succ n =>
      have hno1 : ∀ i, i < m → synthNoLive env (a + 1 + i) := by
        intro i hi
        have := hno (i + 1) (by omega)
        rwa [show a + (i + 1) = a + 1 + i by omega] at this
      have hdict1 : ai_web_scraping (env.synth (a + 1 + m)) = .dict kvs := by
        rwa [show a + 1 + m = a + (m + 1) by omega]
      have h0 := hno 0 (Nat.succ_pos m)
      rw [Nat.add_zero] at h0
      rcases h0 with hnone | ⟨kvs', hdict', hdead'⟩
      · have hstep : phase2Loop env d a (n + 1) =
            phase2Loop env (some PyVal.none) (a + 1) n := by
          simp [phase2Loop, hnone]
        rw [hstep]
        exact ih n (a + 1) _ kvs (by omega) hno1 hdict1 hlive
      · have hstep : phase2Loop env d a (n + 1) =
            phase2Loop env
              (some (.dict (pySetEntries kvs' "response_status"
                (.str "Page not found")))) (a + 1) n := by
          simp [phase2Loop, hdict', hdead']
        rw [hstep]
        exact ih n (a + 1) _ kvs (by omega) hno1 hdict1 hlive

/-- When every synthesis attempt yields `None` or a dict, the fallback loop
never raises, and ends with `data` bound to `None` or a dict. -/
theorem phase2Loop_no_error (env : ScrapeEnv)
    (h : ∀ i, ai_web_scraping (env.synth i) = PyVal.none ∨
      ∃ kvs, ai_web_scraping (env.synth i) = .dict kvs) :
    ∀ (fuel a : Nat) (d : Option PyVal), 1 ≤ fuel →
      ∃ d', phase2Loop env d a fuel = .ok (some d') ∧
        (d' = PyVal.none ∨ ∃ kvs, d' = .dict kvs) := by
  intro fuel
  induction fuel with
  | zero => intro a d h1; omega
  | succ n ih =>
    intro a d _
    rcases h a with hnone | ⟨kvs, hdict⟩
    · have hstep : phase2Loop env d a (n + 1) =
          phase2Loop env (some PyVal.none) (a + 1) n := by
        simp [phase2Loop, hnone]
      cases n with
      | zero => exact ⟨PyVal.none, by rw [hstep]; rfl, Or.inl rfl⟩
      | succ m =>
        obtain ⟨d', hd', hshape⟩ := ih (a + 1) (some PyVal.none) (by omega)
        exact ⟨d', by rw [hstep]; exact hd', hshape⟩
    · by_cases hdead :
        is_page_not_found env.httpGet ((pyLookup kvs "url").getD PyVal.none)
          = true
      · have hstep : phase2Loop env d a (n + 1) =
            phase2Loop env
              (some (.dict (pySetEntries kvs "response_status"
                (.str "Page not found")))) (a + 1) n := by
          simp [phase2Loop, hdict, hdead]
        cases n with
        | zero =>
          exact ⟨.dict (pySetEntries kvs "response_status"
            (.str "Page not found")), by rw [hstep]; rfl, Or.inr ⟨_, rfl⟩⟩
        | succ m =>
          obtain ⟨d', hd', hshape⟩ := ih (a + 1) _ (by omega)
          exact ⟨d', by rw [hstep]; exact hd', hshape⟩
      · have hlive : is_page_not_found env.httpGet
            ((pyLookup kvs "url").getD PyVal.none) = false := by
          simpa using hdead
        exact ⟨.dict (pySetEntries kvs "response_status" (.str "Page found")),
          by simp [phase2Loop, hdict, hlive], Or.inr ⟨_, rfl⟩⟩

/-- The final block returns `.ok` on a `None`-or-dict `data` value. -/
theorem scrapeFinal_ok_of_shape (d : PyVal)
    (h : d = PyVal.none ∨ ∃ kvs, d = .dict kvs) :
    ∃ out, scrapeFinal (some d) = .ok out := by
  rcases h with rfl | ⟨kvs, rfl⟩
  · exact ⟨notFoundSentinel, rfl⟩
  · cases htr : pyTruthy (.dict kvs) with
    | false => exact ⟨notFoundSentinel, by simp [scrapeFinal, htr]⟩
    | true =>
      by_cases hlen : kvs.length = 5
      · exact ⟨kvs.map Prod.snd,
          by simp [scrapeFinal, htr, pyDictValues, List.length_map, hlen]⟩
      · exact ⟨notFoundSentinel,
          by simp [scrapeFinal, htr, pyDictValues, List.length_map, hlen]⟩

/-- The final block forwards the values of a five-entry dict. -/
theorem scrapeFinal_dict_of_len5 (kvs : List (String × PyVal))
    (h : kvs.length = 5) :
    scrapeFinal (some (.dict kvs)) = .ok (kvs.map Prod.snd) := by
  cases kvs with
  | nil => simp at h
  | cons p rest =>
    have hr : rest.length = 4 := by simpa using h
    simp [scrapeFinal, pyTruthy, pyDictValues, List.length_map, hr]

/-- C1 (amended): when the AI-lookup loop exhausts without a live URL, (a) if
every synthesis attempt produces no result, the orchestrator returns —
normally, as a value — the all-`None` sentinel with status "Page not found";
(b) the first synthesis candidate whose URL probes live is the one returned
(tagged "Page found"), provided it carries four fields. A dead-URL candidate
from the last attempt is instead returned with its own fields (see the
counterexample), which is what forces amendment (a). -/
theorem scrape_sentinel_and_first_live :
    (∀ (env : ScrapeEnv) (d1 : Option PyVal),
      1 ≤ env.max_retries →
      phase1Loop env Option.none 0 env.max_retries = .exhausted d1 →
      (∀ i, ai_web_scraping (env.synth i) = PyVal.none) →
      scrape_financial_sources env = .ok notFoundSentinel) ∧
    (∀ (env : ScrapeEnv) (d1 : Option PyVal) (j : Nat)
        (kvs : List (String × PyVal)),
      phase1Loop env Option.none 0 env.max_retries = .exhausted d1 →
      j < env.max_retries →
      (∀ i, i < j → synthNoLive env i) →
      ai_web_scraping (env.synth j) = .dict kvs →
      is_page_not_found env.httpGet ((pyLookup kvs "url").getD .none) = false →
      kvs.length = 4 →
      pyLookup kvs "response_status" = Option.none →
      scrape_financial_sources env =
        .ok ((pySetEntries kvs "response_status" (.str "Page found")).map
          Prod.snd)) := by
  constructor
  · intro env d1 hm hp hnone
    unfold scrape_financial_sources
    rw [hp]
    dsimp only
    rw [phase2Loop_all_none env hnone env.max_retries 0 d1 hm]
    rfl
  · intro env d1 j kvs hp hj hno hdict hlive hlen hnr
    unfold scrape_financial_sources
    rw [hp]
    dsimp only
    rw [phase2Loop_first_live env j env.max_retries 0 d1 kvs hj
        (by simpa using hno) (by simpa using hdict) hlive]
    exact scrapeFinal_dict_of_len5 _
      (by rw [pySetEntries_length_of_not_mem kvs _ _ hnr, hlen])

/-- Witness for C1: with every external step failing, the sentinel is
returned; with the AI lookup failing, the first synthesis attempt empty and
the second one live, that second candidate's fields are returned. -/
theorem scrape_sentinel_and_first_live_witness :
    scrape_financial_sources envAllFail = .ok notFoundSentinel ∧
    scrape_financial_sources envSecondLive =
      .ok [.str "https://x.test/doc.pdf", .str "2023", .str "HIGH",
        .str "Annual Report", .str "Page found"] := by
  constructor
  · exact scrape_sentinel_and_first_live.1 envAllFail Option.none (by decide)
      rfl (fun i => rfl)
  · exact scrape_sentinel_and_first_live.2 envSecondLive Option.none 1
      [("url", .str "https://x.test/doc.pdf"), ("year", .str "2023"),
        ("confidence", .str "HIGH"), ("source_type", .str "Annual Report")]
      rfl (by decide)
      (fun i hi => Or.inl (by
        have h0 : i = 0 := by omega
        subst h0
        rfl))
      rfl rfl rfl rfl

/-- C1 counterexample: in `envDeadCandidate` every AI-lookup and synthesis
attempt fails to yield a live URL (the probe always reports 404), yet the
orchestrator does not return the all-`None` sentinel — it returns the dead
candidate's own fields; and in `envLiveThin` the first synthesis attempt
produces a live candidate, yet the sentinel is returned instead of it,
because the candidate carries fewer than four fields. -/
theorem scrape_sentinel_counterexample :
    scrape_financial_sources envDeadCandidate =
      .ok [.str "https://dead.example/x", .str "2023", .str "HIGH",
        .str "Annual Report", .str "Page not found"] ∧
    scrape_financial_sources envDeadCandidate ≠ .ok notFoundSentinel ∧
    scrape_financial_sources envLiveThin = .ok notFoundSentinel ∧
    scrape_financial_sources envLiveThin ≠
      .ok [.str "https://live.example/", .str "Page found"] := by
  have h1 : scrape_financial_sources envDeadCandidate =
      .ok [.str "https://dead.example/x", .str "2023", .str "HIGH",
        .str "Annual Report", .str "Page not found"] := rfl
  have h2 : scrape_financial_sources envLiveThin = .ok notFoundSentinel := rfl
  refine ⟨h1, ?_, h2, ?_⟩
  · rw [h1]
    simp [notFoundSentinel]
  · rw [h2]
    simp [notFoundSentinel]

/-- C2 (amended): provided every synthesis attempt leaves `result` unset, or
raises, or binds it to a dict (or `None`), a discovery call never raises: it
always returns a tuple. Binding `result` to any other value, however, makes
the orchestrator raise `AttributeError` (see the counterexample). -/
theorem scrape_no_raise_for_dict_or_none (env : ScrapeEnv)
    (hm : 1 ≤ env.max_retries)
    (h : ∀ i, ai_web_scraping (env.synth i) = PyVal.none ∨
      ∃ kvs, ai_web_scraping (env.synth i) = .dict kvs) :
    ∃ out, scrape_financial_sources env = .ok out := by
  unfold scrape_financial_sources
  cases hp : phase1Loop env Option.none 0 env.max_retries with
  | returned out => exact ⟨out, rfl⟩
  | exhausted d1 =>
    obtain ⟨d', hd', hshape⟩ :=
      phase2Loop_no_error env h env.max_retries 0 d1 hm
    dsimp only
    rw [hd']
    exact scrapeFinal_ok_of_shape d' hshape

/-- Witness for C2: a run where everything fails still returns a value. -/
theorem scrape_no_raise_witness :
    ∃ out, scrape_financial_sources envAllFail = .ok out :=
  scrape_no_raise_for_dict_or_none envAllFail (by decide) (fun i => Or.inl rfl)

/-- C2 counterexample: a synthesized routine that binds `result` to a string
makes the whole discovery call raise `AttributeError` (from
`data.get("url")`), contradicting "never raises". -/
theorem scrape_raises_counterexample :
    scrape_financial_sources envNonDictResult = .error .attributeError := rfl

/-- C9: a company whose persisted record already holds six or more entries is
skipped — no discovery call, no append; a company with fewer than six (or no
record at all) gets exactly one discovery call and exactly one appended
record. -/
theorem main_rerun_guard
    (find : String → PyVal → PyVal × PyVal × PyVal × PyVal × PyVal)
    (store : String → Option PyVal) (row : MainRow) (xs : List PyVal) :
    (store (report_key row.name) = some (.list xs) → 6 ≤ xs.length →
      mainStep find store row = (store, 0)) ∧
    (store (report_key row.name) = some (.list xs) → xs.length < 6 →
      mainStep find store row =
        (storeUpdate store (report_key row.name)
          (.list (xs ++ [mainReportOf find row])), 1)) ∧
    (store (report_key row.name) = Option.none →
      mainStep find store row =
        (storeUpdate store (report_key row.name)
          (.list [mainReportOf find row]), 1)) := by
  refine ⟨?_, ?_, ?_⟩
  · intro hrec hlen
    have hskip : 5 < xs.length := by omega
    simp [mainStep, hrec, hskip]
  · intro hrec hlen
    have hskip : ¬(5 < xs.length) := by omega
    have hge : ¬(6 ≤ xs.length) := by omega
    rcases hfind : find row.name row.var with ⟨url, value, currency, refyear, ps⟩
    simp [mainStep, hrec, hskip, hge, mainReportOf, hfind]
  · intro hrec
    rcases hfind : find row.name row.var with ⟨url, value, currency, refyear, ps⟩
    simp [mainStep, hrec, mainReportOf, hfind]

/-- Witness for C9: a six-entry record is left untouched with zero discovery
calls; a one-entry record gains exactly one report after one discovery call;
an absent record is created with one report. -/
theorem main_rerun_guard_witness :
    mainStep (fun _ _ => (PyVal.none, PyVal.none, PyVal.none, PyVal.none,
        PyVal.str "Page not found"))
      (fun k => if k = "Acme_Corp_report.json" then
          some (.list [.int 1, .int 2, .int 3, .int 4, .int 5, .int 6])
        else Option.none)
      ⟨.int 7, "Acme Corp", .str "Annual Report"⟩ =
      ((fun k => if k = "Acme_Corp_report.json" then
          some (.list [.int 1, .int 2, .int 3, .int 4, .int 5, .int 6])
        else Option.none), 0) ∧
    mainStep (fun _ _ => (PyVal.none, PyVal.none, PyVal.none, PyVal.none,
        PyVal.str "Page not found"))
      (fun k => if k = "Beta_Inc_report.json" then some (.list [.int 1])
        else Option.none)
      ⟨.int 8, "Beta Inc", .str "Annual Report"⟩ =
      (storeUpdate
        (fun k => if k = "Beta_Inc_report.json" then some (.list [.int 1])
          else Option.none)
        "Beta_Inc_report.json"
        (.list ([.int 1] ++
          [mainReportOf (fun _ _ => (PyVal.none, PyVal.none, PyVal.none,
            PyVal.none, PyVal.str "Page not found"))
            ⟨.int 8, "Beta Inc", .str "Annual Report"⟩])), 1) := by
  constructor
  · exact (main_rerun_guard
      (fun _ _ => (PyVal.none, PyVal.none, PyVal.none, PyVal.none,
        PyVal.str "Page not found"))
      (fun k => if k = "Acme_Corp_report.json" then
          some (.list [.int 1, .int 2, .int 3, .int 4, .int 5, .int 6])
        else Option.none)
      ⟨.int 7, "Acme Corp", .str "Annual Report"⟩
      [.int 1, .int 2, .int 3, .int 4, .int 5, .int 6]).1 (by rfl)
      (by decide)
  · exact (main_rerun_guard
      (fun _ _ => (PyVal.none, PyVal.none, PyVal.none, PyVal.none,
        PyVal.str "Page not found"))
      (fun k => if k = "Beta_Inc_report.json" then some (.list [.int 1])
        else Option.none)
      ⟨.int 8, "Beta Inc", .str "Annual Report"⟩ [.int 1]).2.1 (by rfl)
      (by decide)
